import Mathlib

/-!
# Verification of `core/registry/bootstrap.go` (go-chassis registration bootstrap)

Shallow embedding of the two bootstrap routines `RegisterMicroservice` and
`RegisterMicroserviceInstances`. Go maps (`map[string]string`) are modelled as
association lists with replace-on-insert semantics; the external collaborators
(Registrator, discovery client, schema store, framework metadata provider) are
modelled as an oracle record supplying their results; the process-wide runtime
identity (`runtime.ServiceID`, `runtime.InstanceID`, ...) is threaded as an
explicit state record; the self-instance cache is an association list from
service ID to instance-ID list (zero TTL, so no expiry is modelled).
-/

namespace ChassisRegistry

/-- A string-keyed map entry list modelling Go's `map[string]string`:
assignment replaces the entry for an existing key, otherwise adds it. -/
abbrev SMap := List (String × String)

/-- Association-list read: the value stored under key `k`, if any. -/
def assocGet {α : Type} (m : List (String × α)) (k : String) : Option α :=
  (m.find? (fun p => p.1 == k)).map (fun p => p.2)

/-- Association-list store: replace the entry for `k`, or append it (the
semantics of Go map assignment). -/
def assocSet {α : Type} (m : List (String × α)) (k : String) (v : α) :
    List (String × α) :=
  if m.any (fun p => p.1 == k) then
    m.map (fun p => if p.1 == k then (k, v) else p)
  else m ++ [(k, v)]

/-- Go map read `m[k]`: the value stored under `k`, if any. -/
def mapGet (m : SMap) (k : String) : Option String :=
  assocGet m k

/-- Go map assignment `m[k] = v`. -/
def mapSet (m : SMap) (k v : String) : SMap :=
  assocSet m k v

/-- `SelfInstancesCache`: service ID → list of instance IDs registered by this
process (`cache.New(0, 0)`, i.e. entries never expire, so no TTL is modelled). -/
abbrev SelfCache := List (String × List String)

/-- `SelfInstancesCache.Get(k)`: the stored instance-ID list, if present. -/
def cacheGet (c : SelfCache) (k : String) : Option (List String) :=
  assocGet c k

/-- `SelfInstancesCache.Set(k, v, 0)`: store under key `k` with zero TTL. -/
def cacheSet (c : SelfCache) (k : String) (v : List String) : SelfCache :=
  assocSet c k v

/-- `registry.ServicePath` (bootstrap.go copies `Path` and `Property` verbatim
from the configured service paths). -/
structure ServicePath where
  path : String
  property : String
deriving Repr, DecidableEq

/-- `registry.Framework` as built in bootstrap.go: `{Version, Name}`. -/
structure Framework where
  version : String
  name : String
deriving Repr, DecidableEq

/-- `registry.DataCenterInfo`: `{Name, Region, AvailableZone}`. -/
structure DataCenterInfo where
  name : String
  region : String
  availableZone : String
deriving Repr, DecidableEq

/-- `registry.MicroService` descriptor, with the fields bootstrap.go fills. -/
structure MicroService where
  serviceID : String
  appID : String
  serviceName : String
  version : String
  paths : List ServicePath
  environment : String
  status : String
  level : String
  schemas : List String
  framework : Framework
  registerBy : String
  metadata : SMap
  «alias» : String
deriving Repr, DecidableEq

/-- `registry.MicroServiceInstance` descriptor, with the fields bootstrap.go
fills. The struct literal in `RegisterMicroserviceInstances` does not assign
`ServiceID`, so it keeps the Go zero value `""`. -/
structure MicroServiceInstance where
  serviceID : String := ""
  endpointsMap : SMap
  hostName : String
  status : String
  metadata : SMap
  dataCenterInfo : Option DataCenterInfo := none
deriving Repr, DecidableEq

/-- `config.MicroserviceDefinition.ServiceDescription`, restricted to the
fields bootstrap.go reads. `properties` and `instanceProperties` are nil-able
Go maps, hence `Option SMap`. The configured descriptor has no «alias» field:
bootstrap.go hard-codes `Alias: ""` (TODO comment in the source). -/
structure ServiceDescription where
  name : String
  version : String
  environment : String
  level : String
  properties : Option SMap
  servicePaths : List ServicePath
  instanceProperties : Option SMap
deriving Repr, DecidableEq

/-- `config.GlobalDefinition.DataCenter`, restricted to the fields read. -/
structure DataCenterCfg where
  name : String
  availableZone : String
deriving Repr, DecidableEq

/-- The configuration inputs bootstrap.go reads: the service description, the
registrator visibility scope, the protocol list, datacenter placement and the
node IP. -/
structure Config where
  serviceDescription : ServiceDescription
  registratorScope : String
  protocols : List String
  dataCenter : DataCenterCfg
  nodeIP : String
deriving Repr, DecidableEq

/-- Process-wide runtime identity (`pkg/runtime`): fields bootstrap.go reads
and writes. -/
structure RuntimeState where
  serviceID : String
  app : String
  hostName : String
  instanceID : String
  instanceStatus : String
deriving Repr, DecidableEq

/-- `common.ScopeFull`: the registrator scope value `"full"` (spec §6:
registrator visibility scope `"full" | other`). -/
def ScopeFull : String := "full"

/-- `common.TRUE`: the string `"true"` stored under `allowCrossApp`. -/
def TRUE : String := "true"

/-- `common.FALSE`: the string `"false"` stored under `allowCrossApp`. -/
def FALSE : String := "false"

/-- Modelled from the spec: `runtime.StatusRunning`, the instance status
written after successful instance registration — spec §4.2 step 5: updates
instance status "to \"running\"". The constant lives in `pkg/runtime`, which
is not part of the sources at hand. -/
def StatusRunning : String := "running"

/-- Errors surfaced by the bootstrap routines. External collaborator errors
are opaque Go `error` values returned unchanged; each constructor tags the
call site that produced the wrapped message. `emptyServiceID` is the distinct
package-level value `errEmptyServiceIDFromRegistry`. -/
inductive RegErr where
  | registration (msg : String)
  | emptyServiceID
  | discovery (msg : String)
  | endpoint (msg : String)
  | propertyUpdate (msg : String)
deriving Repr, DecidableEq

/-- External collaborators of `RegisterMicroservice`: schema store
(`schema.GetSchemaIDs`, `schema.DefaultSchemaIDsMap`), framework metadata
(`metadata.NewFramework`), framework-wide defaults (`common.DefaultLevel`,
`common.DefaultStatus`) and the Registrator write path
(`DefaultRegistrator.RegisterService`). -/
structure ServiceExt where
  getSchemaIDs : Except String (List String)
  framework : Framework
  frameworkRegister : String
  defaultLevel : String
  defaultStatus : String
  registerService : MicroService → Except String String
  schemaContents : String → String

/-- Result of `RegisterMicroservice`: the returned error (if any), the
descriptor submitted to the Registrator (the call is always issued), the
process-wide service ID after the call, the configured service properties
after the call (the routine mutates them in place), and the
`(serviceID, schemaID, content)` triples passed to `AddSchemas`. -/
structure ServiceRegResult where
  res : Except RegErr Unit
  submitted : MicroService
  newServiceID : String
  props : SMap
  schemaRegs : List (String × String × String)
deriving Repr

/-- The descriptor-building prefix of `RegisterMicroservice` (bootstrap.go
lines 24–83): schema discovery with empty-set fallback, level and nil-map
defaulting, verbatim path copying, alias derivation and the visibility
policy. Returns the `MicroService` descriptor that will be submitted together
with the service properties after their in-place update. -/
def buildMicroService (ext : ServiceExt) (cfg : Config) (rt : RuntimeState) :
    MicroService × SMap :=
  let sd := cfg.serviceDescription
  -- schemas, err := schema.GetSchemaIDs(...); on error proceed with []
  let schemas : List String :=
    match ext.getSchemaIDs with
    | .error _ => []
    | .ok s => s
  -- level defaulting and nil-properties defaulting
  let level := if sd.level == "" then ext.defaultLevel else sd.level
  let props0 : SMap :=
    match sd.properties with
    | none => []
    | some p => p
  -- ServicePath entries copied verbatim
  let regpaths := sd.servicePaths.map (fun p => ServicePath.mk p.path p.property)
  let ms0 : MicroService :=
    { serviceID := rt.serviceID
      appID := rt.app
      serviceName := sd.name
      version := sd.version
      paths := regpaths
      environment := sd.environment
      status := ext.defaultStatus
      level := level
      schemas := schemas
      framework := ext.framework
      registerBy := ext.frameworkRegister
      metadata := []
      «alias» := "" }
  -- if len(microservice.Alias) == 0 { Alias = AppID + ":" + ServiceName }
  let ms1 :=
    if ms0.«alias».length == 0 then
      { ms0 with «alias» := ms0.appID ++ ":" ++ ms0.serviceName }
    else ms0
  -- visibility policy
  let msprops :=
    if cfg.registratorScope == ScopeFull then
      ({ ms1 with metadata := mapSet ms1.metadata "allowCrossApp" TRUE },
        mapSet props0 "allowCrossApp" TRUE)
    else
      (ms1, mapSet props0 "allowCrossApp" FALSE)
  msprops

/-- Shallow embedding of `RegisterMicroservice` (bootstrap.go lines 23–106):
build the descriptor, submit it, handle the empty-service-ID case, update the
runtime service ID and register the discovered schemas. Log statements are
dropped (diagnostic only). -/
def RegisterMicroservice (ext : ServiceExt) (cfg : Config) (rt : RuntimeState) :
    ServiceRegResult :=
  let schemas : List String :=
    match ext.getSchemaIDs with
    | .error _ => []
    | .ok s => s
  let ms2 := (buildMicroService ext cfg rt).1
  let props1 := (buildMicroService ext cfg rt).2
  match ext.registerService ms2 with
  | .error e =>
      { res := .error (.registration e), submitted := ms2,
        newServiceID := rt.serviceID, props := props1, schemaRegs := [] }
  | .ok sid =>
      if sid == "" then
        { res := .error .emptyServiceID, submitted := ms2,
          newServiceID := rt.serviceID, props := props1, schemaRegs := [] }
      else
        { res := .ok (), submitted := ms2,
          newServiceID := sid, props := props1,
          schemaRegs := schemas.map (fun sch => (sid, sch, ext.schemaContents sch)) }

/-- External collaborators of `RegisterMicroserviceInstances`: the discovery
client (`DefaultServiceDiscoveryService.GetMicroServiceID`), the endpoint-map
builder (`MakeEndpointMap`, defined outside bootstrap.go and kept abstract),
`common.DefaultStatus`, and the Registrator write path
(`RegisterServiceInstance`, `UpdateMicroServiceInstanceProperties`). -/
structure InstanceExt where
  getMicroServiceID : Except String String
  makeEndpointMap : Except String SMap
  defaultStatus : String
  registerServiceInstance : String → MicroServiceInstance → Except String String
  updateInstanceProperties : String → String → SMap → Except String Unit

/-- bootstrap.go lines 131–144: build the `MicroServiceInstance` descriptor
from the already-resolved endpoint map `eps`: host name, default status, a
metadata entry recording the node IP, and `DataCenterInfo` attached only when
both the datacenter name and the availability zone are configured (`Region`
is copied from the datacenter name). `ServiceID` is not assigned and keeps
the Go zero value `""`. -/
def buildInstance (cfg : Config) (rt : RuntimeState) (defaultStatus : String)
    (eps : SMap) : MicroServiceInstance :=
  let inst0 : MicroServiceInstance :=
    { endpointsMap := eps
      hostName := rt.hostName
      status := defaultStatus
      metadata := [("nodeIP", cfg.nodeIP)] }
  let dInfo : DataCenterInfo :=
    { name := cfg.dataCenter.name
      region := cfg.dataCenter.name
      availableZone := cfg.dataCenter.availableZone }
  if cfg.dataCenter.name ≠ "" ∧ cfg.dataCenter.availableZone ≠ "" then
    { inst0 with dataCenterInfo := some dInfo }
  else inst0

/-- bootstrap.go lines 162–173: the self-instance cache update. Reads the
list stored under `microServiceInstance.ServiceID` (the field of the freshly
built descriptor), appends `instanceID` to it if absent, and stores the
result under `sid` (the discovery-resolved service ID). -/
def selfCacheUpdate (cache : SelfCache) (inst : MicroServiceInstance)
    (instanceID sid : String) : SelfCache :=
  let instanceIDs := (cacheGet cache inst.serviceID).getD []
  let instanceIDs1 :=
    if instanceIDs.contains instanceID then instanceIDs
    else instanceIDs ++ [instanceID]
  cacheSet cache sid instanceIDs1

/-- Result of `RegisterMicroserviceInstances`: the returned error (if any),
the instance descriptor submitted to the Registrator (`none` when the routine
aborts before submission), the runtime identity after the call and the
self-instance cache after the call. -/
structure InstanceRegResult where
  res : Except RegErr Unit
  submitted : Option MicroServiceInstance
  rt : RuntimeState
  cache : SelfCache
deriving Repr

/-- Shallow embedding of `RegisterMicroserviceInstances` (bootstrap.go lines
109–176). `instanceEndpoints` is the package-level override variable
`InstanceEndpoints` (`none` models the nil map). Log statements are dropped. -/
def RegisterMicroserviceInstances (ext : InstanceExt) (cfg : Config)
    (instanceEndpoints : Option SMap) (rt : RuntimeState) (cache : SelfCache) :
    InstanceRegResult :=
  match ext.getMicroServiceID with
  | .error e => { res := .error (.discovery e), submitted := none, rt := rt, cache := cache }
  | .ok sid =>
    match ext.makeEndpointMap with
    | .error e => { res := .error (.endpoint e), submitted := none, rt := rt, cache := cache }
    | .ok eps0 =>
      -- if InstanceEndpoints != nil { eps = InstanceEndpoints }
      let eps := instanceEndpoints.getD eps0
      let inst := buildInstance cfg rt ext.defaultStatus eps
      match ext.registerServiceInstance sid inst with
      | .error e =>
          { res := .error (.registration e), submitted := some inst, rt := rt, cache := cache }
      | .ok instanceID =>
        -- runtime identity updated before the optional property push
        let rt1 := { rt with instanceID := instanceID, instanceStatus := StatusRunning }
        match cfg.serviceDescription.instanceProperties with
        | some p =>
          match ext.updateInstanceProperties sid instanceID p with
          | .error e =>
              { res := .error (.propertyUpdate e), submitted := some inst, rt := rt1, cache := cache }
          | .ok _ =>
              { res := .ok (), submitted := some inst, rt := rt1,
                cache := selfCacheUpdate cache inst instanceID sid }
        | none =>
            { res := .ok (), submitted := some inst, rt := rt1,
              cache := selfCacheUpdate cache inst instanceID sid }

/-! ## Concrete sample inputs (used by witnesses and counterexamples) -/

/-- A sample framework metadata record. -/
def sampleFramework : Framework := { version := "v1", name := "go-chassis" }

/-- A sample configured service description. -/
def sampleSD : ServiceDescription :=
  { name := "svcA", version := "1.0", environment := "", level := "",
    properties := none, servicePaths := [], instanceProperties := none }

/-- A sample configuration with a non-"full" registrator scope and no
datacenter placement. -/
def sampleCfg : Config :=
  { serviceDescription := sampleSD, registratorScope := "local",
    protocols := ["rest"], dataCenter := { name := "", availableZone := "" },
    nodeIP := "10.0.0.1" }

/-- `sampleCfg` with registrator scope `"full"`. -/
def sampleCfgFull : Config := { sampleCfg with registratorScope := "full" }

/-- `sampleCfg` with a configured datacenter name and availability zone. -/
def sampleCfgDC : Config :=
  { sampleCfg with dataCenter := { name := "dc1", availableZone := "az1" } }

/-- `sampleCfg` with configured instance properties. -/
def sampleCfgProps : Config :=
  { sampleCfg with serviceDescription :=
      { sampleSD with instanceProperties := some [("k1", "v1")] } }

/-- A sample runtime identity before registration. -/
def sampleRt : RuntimeState :=
  { serviceID := "old-sid", app := "app1", hostName := "host1",
    instanceID := "", instanceStatus := "" }

/-- A sample service-side oracle whose Registrator returns `"sid-1"`. -/
def sampleSExt : ServiceExt :=
  { getSchemaIDs := .ok ["s1"], framework := sampleFramework,
    frameworkRegister := "SDK", defaultLevel := "FRONT", defaultStatus := "UP",
    registerService := fun _ => .ok "sid-1",
    schemaContents := fun _ => "schema-content" }

/-- `sampleSExt`, but the Registrator succeeds with an empty service ID. -/
def sampleSExtEmptySID : ServiceExt :=
  { sampleSExt with registerService := fun _ => .ok "" }

/-- `sampleSExt`, but schema discovery fails. -/
def sampleSExtNoSchemas : ServiceExt :=
  { sampleSExt with getSchemaIDs := .error "no schemas file" }

/-- A sample computed protocol→endpoint map. -/
def sampleEps : SMap := [("rest", "10.0.0.1:8080")]

/-- A sample endpoint override map. -/
def ovMap : SMap := [("rest", "9.9.9.9:99")]

/-- A sample instance-side oracle: discovery resolves `"sid-1"`, the
Registrator returns instance ID `"inst-1"`, updates succeed. -/
def sampleIExt : InstanceExt :=
  { getMicroServiceID := .ok "sid-1", makeEndpointMap := .ok sampleEps,
    defaultStatus := "UP",
    registerServiceInstance := fun _ _ => .ok "inst-1",
    updateInstanceProperties := fun _ _ _ => .ok () }

/-- `sampleIExt`, but the property-update call fails. -/
def sampleIExtPropFail : InstanceExt :=
  { sampleIExt with updateInstanceProperties := fun _ _ _ => .error "update failed" }

/-- The `DataCenterInfo` record built from `sampleCfgDC`. -/
def sampleDC : DataCenterInfo := { name := "dc1", region := "dc1", availableZone := "az1" }

/-! ## Basic association-list lemmas -/

theorem find?_map_replace {α : Type} (m : List (String × α)) (k : String) (v : α)
    (hm : m.any (fun p => p.1 == k) = true) :
    (m.map (fun p => if p.1 == k then (k, v) else p)).find? (fun p => p.1 == k) =
      some (k, v) := by
  induction m with
  | nil => simp at hm
  | cons a t ih =>
    rw [List.map_cons]
    by_cases hk : (a.1 == k) = true
    · rw [if_pos hk]
      exact List.find?_cons_of_pos _ (by simp)
    · rw [if_neg hk, List.find?_cons_of_neg (p := fun q : String × α => q.1 == k) _ hk]
      exact ih (by simpa [List.any_cons, hk] using hm)

theorem assocGet_assocSet_self {α : Type} (m : List (String × α)) (k : String) (v : α) :
    assocGet (assocSet m k v) k = some v := by
  unfold assocGet assocSet
  by_cases hm : m.any (fun p => p.1 == k) = true
  · rw [if_pos hm, find?_map_replace m k v hm]
    rfl
  · rw [if_neg hm]
    have hnone : m.find? (fun p => p.1 == k) = none := by
      rw [List.find?_eq_none]
      intro x hx hxk
      exact hm (List.any_eq_true.mpr ⟨x, hx, hxk⟩)
    rw [List.find?_append, hnone, Option.none_or]
    rw [List.find?_cons_of_pos _ (by simp)]
    rfl

/-! ## Projection lemmas for `RegisterMicroservice` -/

theorem RegisterMicroservice_submitted (ext : ServiceExt) (cfg : Config) (rt : RuntimeState) :
    (RegisterMicroservice ext cfg rt).submitted = (buildMicroService ext cfg rt).1 := by
  simp only [RegisterMicroservice]
  split
  · rfl
  · split <;> rfl

theorem RegisterMicroservice_props (ext : ServiceExt) (cfg : Config) (rt : RuntimeState) :
    (RegisterMicroservice ext cfg rt).props = (buildMicroService ext cfg rt).2 := by
  simp only [RegisterMicroservice]
  split
  · rfl
  · split <;> rfl

theorem buildMicroService_alias (ext : ServiceExt) (cfg : Config) (rt : RuntimeState) :
    (buildMicroService ext cfg rt).1.«alias» = rt.app ++ ":" ++ cfg.serviceDescription.name := by
  simp only [buildMicroService]
  split <;> simp

theorem buildMicroService_schemas (ext : ServiceExt) (cfg : Config) (rt : RuntimeState)
    (e : String) (hs : ext.getSchemaIDs = .error e) :
    (buildMicroService ext cfg rt).1.schemas = [] := by
  simp only [buildMicroService, hs]
  split <;> simp

theorem mapGet_mapSet_self (m : SMap) (k v : String) :
    mapGet (mapSet m k v) k = some v :=
  assocGet_assocSet_self m k v

theorem buildMicroService_metadata_full (ext : ServiceExt) (cfg : Config) (rt : RuntimeState)
    (h : cfg.registratorScope = ScopeFull) :
    (buildMicroService ext cfg rt).1.metadata = mapSet [] "allowCrossApp" TRUE := by
  simp only [buildMicroService, h]
  simp

theorem buildMicroService_metadata_other (ext : ServiceExt) (cfg : Config) (rt : RuntimeState)
    (h : cfg.registratorScope ≠ ScopeFull) :
    (buildMicroService ext cfg rt).1.metadata = [] := by
  simp only [buildMicroService]
  simp [h]

theorem buildMicroService_props_full (ext : ServiceExt) (cfg : Config) (rt : RuntimeState)
    (h : cfg.registratorScope = ScopeFull) :
    (buildMicroService ext cfg rt).2 =
      mapSet (cfg.serviceDescription.properties.getD []) "allowCrossApp" TRUE := by
  simp only [buildMicroService, h]
  cases cfg.serviceDescription.properties <;> simp

theorem buildMicroService_props_other (ext : ServiceExt) (cfg : Config) (rt : RuntimeState)
    (h : cfg.registratorScope ≠ ScopeFull) :
    (buildMicroService ext cfg rt).2 =
      mapSet (cfg.serviceDescription.properties.getD []) "allowCrossApp" FALSE := by
  simp only [buildMicroService]
  cases cfg.serviceDescription.properties <;> simp [h]

/-! ## Claim theorems for `RegisterMicroservice` -/

/-- C5: for every configured service descriptor (none of which supplies an
alias — the source hard-codes the configured alias to the empty string), the
submitted `MicroService` descriptor's alias equals the application ID, the
character ":", and the service name concatenated. -/
theorem C5_submitted_alias_app_colon_name (ext : ServiceExt) (cfg : Config) (rt : RuntimeState) :
    (RegisterMicroservice ext cfg rt).submitted.«alias» =
      rt.app ++ ":" ++ cfg.serviceDescription.name := by
  rw [RegisterMicroservice_submitted]
  exact buildMicroService_alias ext cfg rt

/-- C3 (counterexample): at a configuration whose registrator scope is
`"local"` (not `"full"`), the submitted descriptor's metadata does not map
`allowCrossApp` to `"false"` (the key is absent), refuting the claim that for
any non-"full" scope both metadata and properties map `allowCrossApp` to
`"false"`. -/
theorem C3_counterexample :
    ¬ (mapGet (RegisterMicroservice sampleSExt sampleCfg sampleRt).submitted.metadata
          "allowCrossApp" = some FALSE ∧
       mapGet (RegisterMicroservice sampleSExt sampleCfg sampleRt).props
          "allowCrossApp" = some FALSE) := by
  intro h
  have hm : mapGet (RegisterMicroservice sampleSExt sampleCfg sampleRt).submitted.metadata
      "allowCrossApp" = none := by
    rw [RegisterMicroservice_submitted,
      buildMicroService_metadata_other sampleSExt sampleCfg sampleRt (by decide)]
    rfl
  rw [hm] at h
  exact Option.noConfusion h.1

/-- C3 (amended): if the configured registrator scope is `"full"`, both the
submitted descriptor's metadata and the configured service properties map
`allowCrossApp` to `"true"`; for any other scope value the configured service
properties map `allowCrossApp` to `"false"` while the descriptor metadata
contains no `allowCrossApp` entry at all. -/
theorem C3_visibility_policy (ext : ServiceExt) (cfg : Config) (rt : RuntimeState) :
    (cfg.registratorScope = ScopeFull →
      mapGet (RegisterMicroservice ext cfg rt).submitted.metadata "allowCrossApp" = some TRUE ∧
      mapGet (RegisterMicroservice ext cfg rt).props "allowCrossApp" = some TRUE) ∧
    (cfg.registratorScope ≠ ScopeFull →
      mapGet (RegisterMicroservice ext cfg rt).props "allowCrossApp" = some FALSE ∧
      mapGet (RegisterMicroservice ext cfg rt).submitted.metadata "allowCrossApp" = none) := by
  rw [RegisterMicroservice_submitted, RegisterMicroservice_props]
  constructor
  · intro h
    rw [buildMicroService_metadata_full ext cfg rt h, buildMicroService_props_full ext cfg rt h]
    exact ⟨mapGet_mapSet_self _ _ _, mapGet_mapSet_self _ _ _⟩
  · intro h
    rw [buildMicroService_metadata_other ext cfg rt h, buildMicroService_props_other ext cfg rt h]
    exact ⟨mapGet_mapSet_self _ _ _, rfl⟩

/-- C3 (witness): the amended claim evaluated at concrete configurations with
scope `"full"` and scope `"local"`. -/
theorem C3_visibility_policy_witness :
    (mapGet (RegisterMicroservice sampleSExt sampleCfgFull sampleRt).submitted.metadata
        "allowCrossApp" = some TRUE ∧
     mapGet (RegisterMicroservice sampleSExt sampleCfgFull sampleRt).props
        "allowCrossApp" = some TRUE) ∧
    (mapGet (RegisterMicroservice sampleSExt sampleCfg sampleRt).props
        "allowCrossApp" = some FALSE ∧
     mapGet (RegisterMicroservice sampleSExt sampleCfg sampleRt).submitted.metadata
        "allowCrossApp" = none) :=
  ⟨(C3_visibility_policy sampleSExt sampleCfgFull sampleRt).1 rfl,
   (C3_visibility_policy sampleSExt sampleCfg sampleRt).2 (by decide)⟩

/-- C4: if the Registrator's `RegisterService` succeeds but returns an empty
identifier, `RegisterMicroservice` returns the distinct
`errEmptyServiceIDFromRegistry` error (distinct from every wrapped
registration error), the runtime service ID keeps its previous value, and no
schema registrations are performed. -/
theorem C4_empty_service_id_rejected (ext : ServiceExt) (cfg : Config) (rt : RuntimeState)
    (hr : ∀ m, ext.registerService m = .ok "") :
    (RegisterMicroservice ext cfg rt).res = .error .emptyServiceID ∧
    (RegisterMicroservice ext cfg rt).newServiceID = rt.serviceID ∧
    (RegisterMicroservice ext cfg rt).schemaRegs = [] ∧
    ∀ msg, RegErr.emptyServiceID ≠ RegErr.registration msg := by
  simp only [RegisterMicroservice, hr]
  refine ⟨by simp, by simp, by simp, ?_⟩
  intro msg h
  exact RegErr.noConfusion h

/-- C4 (witness): the empty-service-ID path evaluated at a concrete input. -/
theorem C4_empty_service_id_rejected_witness :
    (RegisterMicroservice sampleSExtEmptySID sampleCfg sampleRt).res = .error .emptyServiceID ∧
    (RegisterMicroservice sampleSExtEmptySID sampleCfg sampleRt).newServiceID =
      sampleRt.serviceID ∧
    (RegisterMicroservice sampleSExtEmptySID sampleCfg sampleRt).schemaRegs = [] ∧
    ∀ msg, RegErr.emptyServiceID ≠ RegErr.registration msg :=
  C4_empty_service_id_rejected sampleSExtEmptySID sampleCfg sampleRt (fun _ => rfl)

/-- C8: if schema-identifier discovery fails, `RegisterMicroservice` proceeds
with an empty schema list: the submitted descriptor carries an empty schema
set, the per-schema registration loop performs no registrations, and if the
Registrator then accepts the descriptor with a non-empty service ID the call
returns success (the discovery failure is not surfaced). -/
theorem C8_schema_absence_not_an_error (ext : ServiceExt) (cfg : Config) (rt : RuntimeState)
    (e : String) (hs : ext.getSchemaIDs = .error e) :
    (RegisterMicroservice ext cfg rt).submitted.schemas = [] ∧
    (RegisterMicroservice ext cfg rt).schemaRegs = [] ∧
    ∀ sid, ext.registerService (RegisterMicroservice ext cfg rt).submitted = .ok sid →
      sid ≠ "" → (RegisterMicroservice ext cfg rt).res = .ok () := by
  refine ⟨?_, ?_, ?_⟩
  · rw [RegisterMicroservice_submitted]
    exact buildMicroService_schemas ext cfg rt e hs
  · simp only [RegisterMicroservice, hs]
    split
    · rfl
    · split <;> simp
  · intro sid hreg hsid
    rw [RegisterMicroservice_submitted] at hreg
    simp only [RegisterMicroservice, hreg]
    simp [hsid]

/-- C8 (witness): failing schema discovery evaluated at a concrete input whose
Registrator accepts the descriptor. -/
theorem C8_schema_absence_not_an_error_witness :
    (RegisterMicroservice sampleSExtNoSchemas sampleCfg sampleRt).submitted.schemas = [] ∧
    (RegisterMicroservice sampleSExtNoSchemas sampleCfg sampleRt).schemaRegs = [] ∧
    (RegisterMicroservice sampleSExtNoSchemas sampleCfg sampleRt).res = .ok () :=
  ⟨(C8_schema_absence_not_an_error sampleSExtNoSchemas sampleCfg sampleRt
      "no schemas file" rfl).1,
   (C8_schema_absence_not_an_error sampleSExtNoSchemas sampleCfg sampleRt
      "no schemas file" rfl).2.1,
   (C8_schema_absence_not_an_error sampleSExtNoSchemas sampleCfg sampleRt
      "no schemas file" rfl).2.2 "sid-1" rfl (by decide)⟩

/-! ## Projection lemmas for `RegisterMicroserviceInstances` -/

theorem buildInstance_endpointsMap (cfg : Config) (rt : RuntimeState) (ds : String)
    (eps : SMap) : (buildInstance cfg rt ds eps).endpointsMap = eps := by
  simp only [buildInstance]
  split <;> rfl

theorem buildInstance_serviceID (cfg : Config) (rt : RuntimeState) (ds : String)
    (eps : SMap) : (buildInstance cfg rt ds eps).serviceID = "" := by
  simp only [buildInstance]
  split <;> rfl

theorem buildInstance_dataCenterInfo (cfg : Config) (rt : RuntimeState) (ds : String)
    (eps : SMap) :
    (buildInstance cfg rt ds eps).dataCenterInfo =
      if cfg.dataCenter.name ≠ "" ∧ cfg.dataCenter.availableZone ≠ "" then
        some { name := cfg.dataCenter.name, region := cfg.dataCenter.name,
               availableZone := cfg.dataCenter.availableZone }
      else none := by
  simp only [buildInstance]
  split <;> simp [*]

/-- Whatever instance descriptor `RegisterMicroserviceInstances` submits is
the one built from the configuration, the runtime host name, the default
status and the (possibly overridden) endpoint map. -/
theorem RMI_submitted_eq (ext : InstanceExt) (cfg : Config) (ep : Option SMap)
    (rt : RuntimeState) (c : SelfCache) (inst : MicroServiceInstance)
    (h : (RegisterMicroserviceInstances ext cfg ep rt c).submitted = some inst) :
    ∃ eps0, ext.makeEndpointMap = .ok eps0 ∧
      inst = buildInstance cfg rt ext.defaultStatus (ep.getD eps0) := by
  cases hg : ext.getMicroServiceID with
  | error e => simp [RegisterMicroserviceInstances, hg] at h
  | ok sid =>
    cases hm : ext.makeEndpointMap with
    | error e => simp [RegisterMicroserviceInstances, hg, hm] at h
    | ok eps0 =>
      refine ⟨eps0, rfl, ?_⟩
      cases hr : ext.registerServiceInstance sid
          (buildInstance cfg rt ext.defaultStatus (ep.getD eps0)) with
      | error e2 =>
        simp [RegisterMicroserviceInstances, hg, hm, hr] at h
        exact h.symm
      | ok iid =>
        cases hp : cfg.serviceDescription.instanceProperties with
        | none =>
          simp [RegisterMicroserviceInstances, hg, hm, hr, hp] at h
          exact h.symm
        | some p =>
          cases hu : ext.updateInstanceProperties sid iid p with
          | error e3 =>
            simp [RegisterMicroserviceInstances, hg, hm, hr, hp, hu] at h
            exact h.symm
          | ok u =>
            simp [RegisterMicroserviceInstances, hg, hm, hr, hp, hu] at h
            exact h.symm

/-- The fully-successful run of `RegisterMicroserviceInstances`, characterised
as one equation. -/
theorem RMI_run_ok (ext : InstanceExt) (cfg : Config) (ep : Option SMap)
    (rt : RuntimeState) (c : SelfCache) (sid iid : String) (eps0 : SMap)
    (h1 : ext.getMicroServiceID = .ok sid)
    (h2 : ext.makeEndpointMap = .ok eps0)
    (h3 : ∀ s inst, ext.registerServiceInstance s inst = .ok iid)
    (h4 : ∀ s i p, ext.updateInstanceProperties s i p = .ok ()) :
    RegisterMicroserviceInstances ext cfg ep rt c =
      { res := .ok ()
        submitted := some (buildInstance cfg rt ext.defaultStatus (ep.getD eps0))
        rt := { rt with instanceID := iid, instanceStatus := StatusRunning }
        cache := selfCacheUpdate c (buildInstance cfg rt ext.defaultStatus (ep.getD eps0))
          iid sid } := by
  cases hp : cfg.serviceDescription.instanceProperties with
  | none => simp [RegisterMicroserviceInstances, h1, h2, h3, hp]
  | some p => simp [RegisterMicroserviceInstances, h1, h2, h3, h4, hp]

/-! ## Cache-computation lemmas -/

theorem cacheGet_single (sid : String) (l : List String) :
    cacheGet [(sid, l)] sid = some l := by
  simp [cacheGet, assocGet, List.find?]

theorem selfCacheUpdate_nil (inst : MicroServiceInstance) (iid sid : String)
    (h : inst.serviceID = "") :
    selfCacheUpdate [] inst iid sid = [(sid, [iid])] := by
  simp [selfCacheUpdate, h, cacheGet, assocGet, cacheSet, assocSet]

theorem selfCacheUpdate_single_self (inst : MicroServiceInstance) (iid sid : String)
    (h : inst.serviceID = "") :
    selfCacheUpdate [(sid, [iid])] inst iid sid = [(sid, [iid])] := by
  by_cases hs : sid = ""
  · subst hs
    simp [selfCacheUpdate, h, cacheGet, assocGet, cacheSet, assocSet, List.find?]
  · have hb : (sid == "") = false := by simp [hs]
    simp [selfCacheUpdate, h, cacheGet, assocGet, cacheSet, assocSet, List.find?, hb]

/-! ## Claim theorems for `RegisterMicroserviceInstances` -/

/-- C1 (code bug, evaluated at the failing input): with the self-instance
cache already holding `["other-inst"]` under the resolved service ID
`"sid-1"`, a run in which discovery resolves `"sid-1"` and the Registrator
returns `"inst-1"` ends with the `"sid-1"` entry overwritten to `["inst-1"]`:
the code reads the existing list under `microServiceInstance.ServiceID`
(never assigned, hence `""`), not under the resolved service ID as the claim
states, so the previously recorded instance ID is dropped instead of being
kept alongside the appended one. -/
theorem C1_cache_read_uses_descriptor_field :
    (RegisterMicroserviceInstances sampleIExt sampleCfg none sampleRt
        [("sid-1", ["other-inst"])]).cache = [("sid-1", ["inst-1"])] := by
  rfl

/-- C2: running `RegisterMicroserviceInstances` twice from an empty cache,
with discovery resolving `sid` both times and the Registrator returning the
same instance ID `iid` both times, leaves the cache entry for `sid` equal to
`[iid]` (exactly one occurrence), and the second run does not change the
cache. -/
theorem C2_double_registration_single_occurrence (ext : InstanceExt) (cfg : Config)
    (ep : Option SMap) (rt : RuntimeState) (sid iid : String) (eps0 : SMap)
    (h1 : ext.getMicroServiceID = .ok sid)
    (h2 : ext.makeEndpointMap = .ok eps0)
    (h3 : ∀ s inst, ext.registerServiceInstance s inst = .ok iid)
    (h4 : ∀ s i p, ext.updateInstanceProperties s i p = .ok ()) :
    cacheGet (RegisterMicroserviceInstances ext cfg ep
        (RegisterMicroserviceInstances ext cfg ep rt []).rt
        (RegisterMicroserviceInstances ext cfg ep rt []).cache).cache sid = some [iid] ∧
    (RegisterMicroserviceInstances ext cfg ep
        (RegisterMicroserviceInstances ext cfg ep rt []).rt
        (RegisterMicroserviceInstances ext cfg ep rt []).cache).cache =
      (RegisterMicroserviceInstances ext cfg ep rt []).cache := by
  have hb := buildInstance_serviceID cfg rt ext.defaultStatus (ep.getD eps0)
  have e1 := RMI_run_ok ext cfg ep rt [] sid iid eps0 h1 h2 h3 h4
  simp only [e1]
  rw [selfCacheUpdate_nil _ iid sid hb]
  have e2 := RMI_run_ok ext cfg ep
    { rt with instanceID := iid, instanceStatus := StatusRunning }
    [(sid, [iid])] sid iid eps0 h1 h2 h3 h4
  simp only [e2]
  rw [selfCacheUpdate_single_self _ iid sid
    (buildInstance_serviceID cfg _ ext.defaultStatus (ep.getD eps0))]
  exact ⟨cacheGet_single sid [iid], rfl⟩

/-- C2 (witness): the double run evaluated at a concrete oracle returning
`"sid-1"` and `"inst-1"`. -/
theorem C2_double_registration_single_occurrence_witness :
    cacheGet (RegisterMicroserviceInstances sampleIExt sampleCfg none
        (RegisterMicroserviceInstances sampleIExt sampleCfg none sampleRt []).rt
        (RegisterMicroserviceInstances sampleIExt sampleCfg none sampleRt []).cache).cache
      "sid-1" = some ["inst-1"] ∧
    (RegisterMicroserviceInstances sampleIExt sampleCfg none
        (RegisterMicroserviceInstances sampleIExt sampleCfg none sampleRt []).rt
        (RegisterMicroserviceInstances sampleIExt sampleCfg none sampleRt []).cache).cache =
      (RegisterMicroserviceInstances sampleIExt sampleCfg none sampleRt []).cache :=
  C2_double_registration_single_occurrence sampleIExt sampleCfg none sampleRt
    "sid-1" "inst-1" sampleEps rfl rfl (fun _ _ => rfl) (fun _ _ _ => rfl)

/-- C6: if a non-nil endpoint override map was supplied before the call, the
endpoint map of whatever instance descriptor gets submitted equals the
override exactly, for every configured protocol list and every endpoint map
the builder would have computed. -/
theorem C6_override_replaces_endpoints (ext : InstanceExt) (cfg : Config) (ov : SMap)
    (rt : RuntimeState) (c : SelfCache) (inst : MicroServiceInstance)
    (h : (RegisterMicroserviceInstances ext cfg (some ov) rt c).submitted = some inst) :
    inst.endpointsMap = ov := by
  obtain ⟨eps0, -, rfl⟩ := RMI_submitted_eq ext cfg (some ov) rt c inst h
  rw [buildInstance_endpointsMap]
  rfl

/-- C6 (witness): the override evaluated at a concrete input. -/
theorem C6_override_replaces_endpoints_witness :
    (buildInstance sampleCfg sampleRt "UP" ovMap).endpointsMap = ovMap :=
  C6_override_replaces_endpoints sampleIExt sampleCfg ovMap sampleRt []
    (buildInstance sampleCfg sampleRt "UP" ovMap) rfl

/-- C7: the submitted instance descriptor carries a `DataCenterInfo` record
if and only if both the configured datacenter name and the configured
availability zone are non-empty. -/
theorem C7_datacenter_iff_configured (ext : InstanceExt) (cfg : Config) (ep : Option SMap)
    (rt : RuntimeState) (c : SelfCache) (inst : MicroServiceInstance)
    (h : (RegisterMicroserviceInstances ext cfg ep rt c).submitted = some inst) :
    inst.dataCenterInfo.isSome ↔
      (cfg.dataCenter.name ≠ "" ∧ cfg.dataCenter.availableZone ≠ "") := by
  obtain ⟨eps0, -, rfl⟩ := RMI_submitted_eq ext cfg ep rt c inst h
  rw [buildInstance_dataCenterInfo]
  by_cases hc : cfg.dataCenter.name ≠ "" ∧ cfg.dataCenter.availableZone ≠ "" <;>
    simp [hc]

/-- C7 (witness): both directions evaluated at concrete configurations, one
with datacenter name and zone configured and one with both empty. -/
theorem C7_datacenter_iff_configured_witness :
    ((buildInstance sampleCfgDC sampleRt "UP" sampleEps).dataCenterInfo.isSome ↔
      (sampleCfgDC.dataCenter.name ≠ "" ∧ sampleCfgDC.dataCenter.availableZone ≠ "")) ∧
    ((buildInstance sampleCfg sampleRt "UP" sampleEps).dataCenterInfo.isSome ↔
      (sampleCfg.dataCenter.name ≠ "" ∧ sampleCfg.dataCenter.availableZone ≠ "")) :=
  ⟨C7_datacenter_iff_configured sampleIExt sampleCfgDC none sampleRt []
      (buildInstance sampleCfgDC sampleRt "UP" sampleEps) rfl,
   C7_datacenter_iff_configured sampleIExt sampleCfg none sampleRt []
      (buildInstance sampleCfg sampleRt "UP" sampleEps) rfl⟩

/-- C9: when instance properties are configured and the post-registration
property update fails, `RegisterMicroserviceInstances` returns that error
wrapped as a property-update failure, the self-instance cache is untouched,
and the runtime instance ID and instance status have already been set to the
new instance ID and to "running". -/
theorem C9_property_update_failure_after_identity_write (ext : InstanceExt) (cfg : Config)
    (ep : Option SMap) (rt : RuntimeState) (c : SelfCache)
    (sid iid e : String) (p : SMap) (eps0 : SMap)
    (h1 : ext.getMicroServiceID = .ok sid)
    (h2 : ext.makeEndpointMap = .ok eps0)
    (h3 : ∀ s inst, ext.registerServiceInstance s inst = .ok iid)
    (hp : cfg.serviceDescription.instanceProperties = some p)
    (h5 : ∀ s i q, ext.updateInstanceProperties s i q = .error e) :
    (RegisterMicroserviceInstances ext cfg ep rt c).res = .error (.propertyUpdate e) ∧
    (RegisterMicroserviceInstances ext cfg ep rt c).cache = c ∧
    (RegisterMicroserviceInstances ext cfg ep rt c).rt.instanceID = iid ∧
    (RegisterMicroserviceInstances ext cfg ep rt c).rt.instanceStatus = StatusRunning := by
  simp [RegisterMicroserviceInstances, h1, h2, h3, hp, h5]

/-- C9 (witness): the failing property update evaluated at a concrete input. -/
theorem C9_property_update_failure_after_identity_write_witness :
    (RegisterMicroserviceInstances sampleIExtPropFail sampleCfgProps none sampleRt []).res =
      .error (.propertyUpdate "update failed") ∧
    (RegisterMicroserviceInstances sampleIExtPropFail sampleCfgProps none sampleRt []).cache =
      [] ∧
    (RegisterMicroserviceInstances sampleIExtPropFail sampleCfgProps none
        sampleRt []).rt.instanceID = "inst-1" ∧
    (RegisterMicroserviceInstances sampleIExtPropFail sampleCfgProps none
        sampleRt []).rt.instanceStatus = StatusRunning :=
  C9_property_update_failure_after_identity_write sampleIExtPropFail sampleCfgProps none
    sampleRt [] "sid-1" "inst-1" "update failed" [("k1", "v1")] sampleEps
    rfl rfl (fun _ _ => rfl) rfl (fun _ _ _ => rfl)

/-- C10: whenever the submitted instance descriptor carries a
`DataCenterInfo` record, its region equals its name (both copied from the
configured datacenter name) and its availability zone equals the configured
availability zone. -/
theorem C10_region_copied_from_name (ext : InstanceExt) (cfg : Config) (ep : Option SMap)
    (rt : RuntimeState) (c : SelfCache) (inst : MicroServiceInstance) (d : DataCenterInfo)
    (h : (RegisterMicroserviceInstances ext cfg ep rt c).submitted = some inst)
    (hd : inst.dataCenterInfo = some d) :
    d.region = d.name ∧ d.name = cfg.dataCenter.name ∧
      d.availableZone = cfg.dataCenter.availableZone := by
  obtain ⟨eps0, -, rfl⟩ := RMI_submitted_eq ext cfg ep rt c inst h
  rw [buildInstance_dataCenterInfo] at hd
  by_cases hc : cfg.dataCenter.name ≠ "" ∧ cfg.dataCenter.availableZone ≠ ""
  · rw [if_pos hc] at hd
    obtain rfl := Option.some.inj hd
    exact ⟨rfl, rfl, rfl⟩
  · rw [if_neg hc] at hd
    exact Option.noConfusion hd

/-- C10 (witness): the attached record evaluated at a concrete configuration
with datacenter name `"dc1"` and zone `"az1"`. -/
theorem C10_region_copied_from_name_witness :
    sampleDC.region = sampleDC.name ∧ sampleDC.name = sampleCfgDC.dataCenter.name ∧
      sampleDC.availableZone = sampleCfgDC.dataCenter.availableZone :=
  C10_region_copied_from_name sampleIExt sampleCfgDC none sampleRt []
    (buildInstance sampleCfgDC sampleRt "UP" sampleEps) sampleDC rfl rfl

end ChassisRegistry
